import Mathlib

/-!
Shallow embedding of the task-scheduling and persistence core of glass3k
(src/task_scheduler.py and src/database.py).

Modelling conventions:
* Timestamps are natural numbers counting seconds.  The Python code stores
  `datetime.now().isoformat()` strings and compares them (in SQL) with the
  lexicographic text order, which on fixed-format ISO strings coincides with
  chronological order, so `Nat` with `<` is an order-faithful model.
  One minute is 60, one hour 3600, one day 86400.
* The SQLite table `scheduled_tasks` (primary key `id`) is modelled as a
  `List ScheduledTask`; `INSERT OR REPLACE` replaces the row with the same
  id in place, or appends when none exists.
* Fallible storage operations are modelled with an `Except String` argument
  standing for the outcome of the underlying SQL operation; the boundary
  functions translate errors into the safe defaults the Python code returns
  from its `except` blocks.
* A workflow invocation inside `execute_task` has three possible outcomes:
  it succeeds, it fails with an exception caught by the inner `except`
  (counted and recorded), or it raises an exception that escapes the inner
  handler and aborts the iteration loop (caught by the outer `except`).
-/

namespace Glass3k

/-- Task lifecycle states, from `TaskStatus` in src/task_scheduler.py. -/
inductive TaskStatus where
  | pending
  | running
  | completed
  | failed
  | cancelled
  deriving DecidableEq

/-- The `ScheduledTask` dataclass of src/task_scheduler.py. -/
structure ScheduledTask where
  id : String
  name : String
  scheduled_time : String
  workflow_count : Nat
  status : TaskStatus
  created_at : Nat
  started_at : Option Nat
  completed_at : Option Nat
  success_count : Nat
  error_count : Nat
  error_message : Option String
  deriving DecidableEq

/-- The `SchedulerConfig` dataclass of src/task_scheduler.py. -/
structure SchedulerConfig where
  auto_create_enabled : Bool
  auto_create_time : String
  auto_execute_delay_hours : Nat
  default_workflow_count : Nat
  deriving DecidableEq

/-- The hard-coded defaults of `SchedulerConfig`. -/
def defaultConfig : SchedulerConfig :=
  { auto_create_enabled := true
    auto_create_time := "18:00"
    auto_execute_delay_hours := 8
    default_workflow_count := 70 }

/-- `DatabaseManager.get_task_by_id`: first row whose `id` matches. -/
def getTaskById (db : List ScheduledTask) (task_id : String) : Option ScheduledTask :=
  db.find? (fun t => decide (t.id = task_id))

/-- `DatabaseManager.save_task`: `INSERT OR REPLACE` keyed on the primary key
`id` — replace the existing row with that id, or append a new row. -/
def saveTask : List ScheduledTask → ScheduledTask → List ScheduledTask
  | [], t => [t]
  | u :: rest, t => if u.id = t.id then t :: rest else u :: saveTask rest t

/-- The field updates `TaskScheduler.update_task_status` applies to the
fetched task before saving it back: the status is overwritten
unconditionally; `started_at` is stamped when the new status is Running;
`completed_at`, the two counts and the error message are written when the
new status is Completed or Failed (the counts and message coming from the
`kwargs`, defaulting to `0` / `None`). -/
def applyStatusUpdate (now : Nat) (task : ScheduledTask) (status : TaskStatus)
    (success_count error_count : Nat) (error_message : Option String) :
    ScheduledTask :=
  let task1 := { task with status := status }
  if status = TaskStatus.running then
    { task1 with started_at := some now }
  else if status = TaskStatus.completed ∨ status = TaskStatus.failed then
    { task1 with
        completed_at := some now
        success_count := success_count
        error_count := error_count
        error_message := error_message }
  else task1

/-- `TaskScheduler.update_task_status`: fetch by id (silent no-op when the
id is absent), apply the field updates, save the row back. -/
def update_task_status (db : List ScheduledTask) (now : Nat) (task_id : String)
    (status : TaskStatus) (success_count error_count : Nat)
    (error_message : Option String) : List ScheduledTask :=
  match getTaskById db task_id with
  | none => db
  | some task =>
      saveTask db (applyStatusUpdate now task status success_count error_count error_message)

/-- `TaskScheduler.cancel_task`: delegates to `update_task_status` with
status Cancelled and no keyword arguments. -/
def cancel_task (db : List ScheduledTask) (now : Nat) (task_id : String) :
    List ScheduledTask :=
  update_task_status db now task_id TaskStatus.cancelled 0 0 none

/-- Outcome of one `run_workflow()` + `asave_result_to_file` invocation as
seen by the iteration loop of `execute_task`. -/
inductive StepOutcome where
  | success
  | failure (msg : String)
  | escape (msg : String)
  deriving DecidableEq

/-- Result of the iteration loop: either it ran all its steps, or an
exception escaped the inner handler and aborted it. -/
inductive LoopResult where
  | finished (success_count error_count : Nat) (msgs : List String)
  | escaped (msg : String)
  deriving DecidableEq

/-- The `for i in range(task.workflow_count)` loop of `execute_task`:
each caught failure increments `error_count` and appends a message, each
success increments `success_count`; an escaping exception aborts. -/
def runSteps (sc ec : Nat) (msgs : List String) : List StepOutcome → LoopResult
  | [] => LoopResult.finished sc ec msgs
  | StepOutcome.success :: rest => runSteps (sc + 1) ec msgs rest
  | StepOutcome.failure m :: rest => runSteps sc (ec + 1) (msgs ++ [m]) rest
  | StepOutcome.escape m :: _ => LoopResult.escaped m

/-- `"; ".join(error_messages[:3]) if error_messages else None`. -/
def joinedErrorMsg (msgs : List String) : Option String :=
  if msgs.isEmpty then none else some (String.intercalate "; " (msgs.take 3))

/-- `TaskScheduler.execute_task`: mark the task Running, reload it, run the
iteration loop (`outcomes i` is what the i-th invocation does), then persist
the terminal update — Completed/Failed with the final counts on the normal
path, Failed with only an error message (counts defaulting to 0) when an
exception escaped the loop. -/
def execute_task (db : List ScheduledTask) (now : Nat) (task_id : String)
    (outcomes : Nat → StepOutcome) : List ScheduledTask :=
  let db1 := update_task_status db now task_id TaskStatus.running 0 0 none
  match getTaskById db1 task_id with
  | none => db1
  | some task =>
    match runSteps 0 0 [] ((List.range task.workflow_count).map outcomes) with
    | LoopResult.finished sc ec msgs =>
        let status :=
          if ec = 0 then TaskStatus.completed else TaskStatus.failed
        update_task_status db1 now task_id status sc ec (joinedErrorMsg msgs)
    | LoopResult.escaped m =>
        update_task_status db1 now task_id TaskStatus.failed 0 0 (some m)

/-- The id kind check of `_check_and_execute_tasks`,
`task.id.startswith("test_")`: whether the first five characters of the id
are the immediate/test kind tag. -/
def hasTestTag (s : String) : Bool := decide (s.data.take 5 = "test_".data)

/-- Due-time computation of `_check_and_execute_tasks`: ids carrying the
test tag are due one minute after creation, all others after the
configured delay in hours — read from the config in effect at scan time. -/
def dueTime (cfg : SchedulerConfig) (t : ScheduledTask) : Nat :=
  if hasTestTag t.id then t.created_at + 60
  else t.created_at + 3600 * cfg.auto_execute_delay_hours

/-- The Pending bucket of `TaskScheduler.get_tasks`. -/
def pendingTasks (db : List ScheduledTask) : List ScheduledTask :=
  db.filter (fun t => decide (t.status = TaskStatus.pending))

/-- `_check_and_execute_tasks`: walk the Pending tasks in store order and
dispatch the first whose due time has been reached (the loop `break`s after
one dispatch). Returns the dispatched task, if any. -/
def check_and_execute_tasks (cfg : SchedulerConfig) (db : List ScheduledTask)
    (now : Nat) : Option ScheduledTask :=
  (pendingTasks db).find? (fun t => decide (dueTime cfg t ≤ now))

/-- Model of `strftime("%Y%m%d_%H%M")` on a target time: an injective
rendering of the timestamp truncated to minute resolution. -/
def fmtMinute (secs : Nat) : String := toString (secs / 60)

/-- Model of `strftime("%Y%m%d_%H%M%S")`: an injective rendering of the
timestamp at second resolution. -/
def fmtSecond (secs : Nat) : String := toString secs

/-- The id assigned by `create_daily_task`:
`f"task_{execute_time.strftime('%Y%m%d_%H%M')}"` with
`execute_time = now + auto_execute_delay_hours`. -/
def daily_task_id (cfg : SchedulerConfig) (now : Nat) : String :=
  "task_" ++ fmtMinute (now + 3600 * cfg.auto_execute_delay_hours)

/-- The id assigned by `create_immediate_task`:
`f"test_{execute_time.strftime('%Y%m%d_%H%M%S')}"` with
`execute_time = now + 1 minute`. -/
def immediate_task_id (now : Nat) : String :=
  "test_" ++ fmtSecond (now + 60)

/-- `TaskScheduler.create_daily_task`: a fresh Pending task carrying the
minute-stamped id of its target execution time. -/
def create_daily_task (cfg : SchedulerConfig) (now : Nat)
    (workflow_count : Nat) : ScheduledTask :=
  { id := daily_task_id cfg now
    name := "daily " ++ fmtMinute (now + 3600 * cfg.auto_execute_delay_hours)
    scheduled_time := fmtMinute (now + 3600 * cfg.auto_execute_delay_hours)
    workflow_count := workflow_count
    status := TaskStatus.pending
    created_at := now
    started_at := none
    completed_at := none
    success_count := 0
    error_count := 0
    error_message := none }

/-- `TaskScheduler.create_immediate_task`: a fresh Pending test task with a
second-stamped id. -/
def create_immediate_task (now : Nat) (workflow_count : Nat) : ScheduledTask :=
  { id := immediate_task_id now
    name := "test " ++ fmtSecond (now + 60)
    scheduled_time := fmtSecond (now + 60)
    workflow_count := workflow_count
    status := TaskStatus.pending
    created_at := now
    started_at := none
    completed_at := none
    success_count := 0
    error_count := 0
    error_message := none }

/-- Whether a status is one of the three terminal states — the SQL filter
`status IN ('已完成', '失败', '已取消')`. -/
def isTerminal (s : TaskStatus) : Bool :=
  decide (s = TaskStatus.completed) || decide (s = TaskStatus.failed) ||
    decide (s = TaskStatus.cancelled)

/-- The SQL `WHERE` clause of `delete_old_tasks`: terminal status, and
`completed_at < cutoff OR (completed_at IS NULL AND created_at < cutoff)`
(SQL three-valued logic: a comparison against NULL is not satisfied). -/
def oldTaskPredicate (cutoff : Nat) (t : ScheduledTask) : Bool :=
  isTerminal t.status &&
    (match t.completed_at with
     | some c => decide (c < cutoff)
     | none => decide (t.created_at < cutoff))

/-- `DatabaseManager.delete_old_tasks`: cutoff is `now - days` days; rows
matching `oldTaskPredicate` are deleted; returns the remaining store and the
deleted-row count. -/
def delete_old_tasks (db : List ScheduledTask) (now : Nat) (days : Nat) :
    List ScheduledTask × Nat :=
  let cutoff := now - 86400 * days
  let remaining := db.filter (fun t => ! oldTaskPredicate cutoff t)
  (remaining, db.length - remaining.length)

/-- `DatabaseManager.load_tasks`: the rows on success, `[]` when the
storage operation fails. -/
def load_tasks (raw : Except String (List ScheduledTask)) :
    List ScheduledTask :=
  match raw with
  | Except.ok ts => ts
  | Except.error _ => []

/-- `DatabaseManager.save_task`'s return value: `True` on success, `False`
when the storage operation fails. -/
def save_task_result (raw : Except String Unit) : Bool :=
  match raw with
  | Except.ok _ => true
  | Except.error _ => false

/-- `DatabaseManager.delete_task`'s return value: `True` on success,
`False` when the storage operation fails. -/
def delete_task_result (raw : Except String Unit) : Bool :=
  match raw with
  | Except.ok _ => true
  | Except.error _ => false

/-- The statistics record returned by `get_task_statistics`. -/
structure TaskStatistics where
  total_tasks : Nat
  status_counts : List (TaskStatus × Nat)
  recent_tasks : Nat
  deriving DecidableEq

/-- Number of stored tasks with a given status (`GROUP BY status`). -/
def statusCount (db : List ScheduledTask) (s : TaskStatus) : Nat :=
  (db.filter (fun t => decide (t.status = s))).length

/-- The statuses, in declaration order. -/
def allStatuses : List TaskStatus :=
  [TaskStatus.pending, TaskStatus.running, TaskStatus.completed,
   TaskStatus.failed, TaskStatus.cancelled]

/-- The successful branch of `get_task_statistics`: total row count, counts
grouped by status (absent statuses yield no row), and the count of tasks
created within the trailing 7 days. -/
def computeStatistics (db : List ScheduledTask) (now : Nat) : TaskStatistics :=
  { total_tasks := db.length
    status_counts :=
      (allStatuses.filter (fun s => decide (statusCount db s ≠ 0))).map
        (fun s => (s, statusCount db s))
    recent_tasks :=
      (db.filter (fun t => decide (now - 604800 ≤ t.created_at))).length }

/-- `DatabaseManager.get_task_statistics`: the computed statistics on
success, the all-zero record when the storage operation fails. -/
def get_task_statistics (raw : Except String (List ScheduledTask))
    (now : Nat) : TaskStatistics :=
  match raw with
  | Except.ok db => computeStatistics db now
  | Except.error _ => { total_tasks := 0, status_counts := [], recent_tasks := 0 }

/-- `DatabaseManager.load_config`: the stored row on success, the
hard-coded default configuration when the storage operation fails. -/
def load_config (raw : Except String SchedulerConfig) : SchedulerConfig :=
  match raw with
  | Except.ok cfg => cfg
  | Except.error _ => defaultConfig

/-! ### Concrete fixtures used by counterexamples and witnesses -/

/-- A concrete task row with the given id, workflow count, status and
creation time; the remaining fields are fresh-task defaults. -/
def mkTask (i : String) (wc : Nat) (st : TaskStatus) (created : Nat) :
    ScheduledTask :=
  { id := i
    name := "n"
    scheduled_time := "s"
    workflow_count := wc
    status := st
    created_at := created
    started_at := none
    completed_at := none
    success_count := 0
    error_count := 0
    error_message := none }

/-- A Pending task with two workflow units. -/
def taskA : ScheduledTask := mkTask "task_100" 2 TaskStatus.pending 0

/-- A Pending task with two workflow units, used for the execution witness. -/
def taskB : ScheduledTask := mkTask "task_5" 2 TaskStatus.pending 0

/-- A task currently Running. -/
def taskR : ScheduledTask := mkTask "task_r" 3 TaskStatus.running 0

/-- A task already Completed. -/
def taskD : ScheduledTask := mkTask "task_d" 3 TaskStatus.completed 0

/-- A Pending task. -/
def taskP : ScheduledTask := mkTask "task_p" 3 TaskStatus.pending 0

/-- The row `execute_task` persists for `taskB` at time 7 when both
invocations succeed. -/
def taskBFinal : ScheduledTask :=
  { taskB with
      status := TaskStatus.completed
      started_at := some 7
      completed_at := some 7
      success_count := 2 }

/-! ### Basic store lemmas -/

theorem getTaskById_eq_some_id {db : List ScheduledTask} {j : String}
    {t : ScheduledTask} (h : getTaskById db j = some t) : t.id = j := by
  have hp := List.find?_some h
  simpa using hp

theorem getTaskById_saveTask_self (db : List ScheduledTask) (t : ScheduledTask) :
    getTaskById (saveTask db t) t.id = some t := by
  induction db with
  | nil => simp [saveTask, getTaskById]
  | cons u rest ih =>
    by_cases h : u.id = t.id
    · simp [saveTask, h, getTaskById]
    · simpa [saveTask, h, getTaskById, List.find?] using ih

theorem getTaskById_saveTask_ne (db : List ScheduledTask) (t : ScheduledTask)
    {j : String} (h : j ≠ t.id) :
    getTaskById (saveTask db t) j = getTaskById db j := by
  have ht : ¬ t.id = j := fun hh => h hh.symm
  induction db with
  | nil =>
    simp [saveTask, getTaskById, List.find?, ht]
  | cons u rest ih =>
    by_cases hu : u.id = t.id
    · have hu2 : ¬ u.id = j := by rw [hu]; exact ht
      simp only [saveTask]
      rw [if_pos hu]
      simp [getTaskById, List.find?, ht, hu2]
    · simp only [saveTask]
      rw [if_neg hu]
      by_cases hj : u.id = j
      · simp [getTaskById, List.find?, hj]
      · simp only [getTaskById, List.find?] at ih ⊢
        simp [hj, ih]

theorem applyStatusUpdate_id (now : Nat) (task : ScheduledTask)
    (status : TaskStatus) (sc ec : Nat) (em : Option String) :
    (applyStatusUpdate now task status sc ec em).id = task.id := by
  unfold applyStatusUpdate
  split
  · rfl
  · split
    · rfl
    · rfl

theorem applyStatusUpdate_status (now : Nat) (task : ScheduledTask)
    (status : TaskStatus) (sc ec : Nat) (em : Option String) :
    (applyStatusUpdate now task status sc ec em).status = status := by
  unfold applyStatusUpdate
  split
  · rfl
  · split
    · rfl
    · rfl

theorem applyStatusUpdate_workflow_count (now : Nat) (task : ScheduledTask)
    (status : TaskStatus) (sc ec : Nat) (em : Option String) :
    (applyStatusUpdate now task status sc ec em).workflow_count =
      task.workflow_count := by
  unfold applyStatusUpdate
  split
  · rfl
  · split
    · rfl
    · rfl

theorem applyStatusUpdate_counts (now : Nat) (task : ScheduledTask)
    {status : TaskStatus} (sc ec : Nat) (em : Option String)
    (h : status = TaskStatus.completed ∨ status = TaskStatus.failed) :
    (applyStatusUpdate now task status sc ec em).success_count = sc ∧
      (applyStatusUpdate now task status sc ec em).error_count = ec := by
  rcases h with rfl | rfl <;> simp [applyStatusUpdate]

theorem getTaskById_update_self {db : List ScheduledTask} {task_id : String}
    {t : ScheduledTask} (now : Nat) (status : TaskStatus) (sc ec : Nat)
    (em : Option String) (ht : getTaskById db task_id = some t) :
    getTaskById (update_task_status db now task_id status sc ec em) task_id =
      some (applyStatusUpdate now t status sc ec em) := by
  have hid : t.id = task_id := getTaskById_eq_some_id ht
  unfold update_task_status
  rw [ht]
  have hid2 : (applyStatusUpdate now t status sc ec em).id = task_id := by
    rw [applyStatusUpdate_id, hid]
  rw [← hid2]
  exact getTaskById_saveTask_self db _

theorem getTaskById_update_ne {db : List ScheduledTask} {task_id : String}
    (now : Nat) (status : TaskStatus) (sc ec : Nat) (em : Option String)
    {j : String} (hj : j ≠ task_id) :
    getTaskById (update_task_status db now task_id status sc ec em) j =
      getTaskById db j := by
  unfold update_task_status
  cases ht : getTaskById db task_id with
  | none => rfl
  | some t =>
    have hid : t.id = task_id := getTaskById_eq_some_id ht
    apply getTaskById_saveTask_ne
    rw [applyStatusUpdate_id, hid]
    exact hj

theorem runSteps_finished_counts (l : List StepOutcome) :
    ∀ sc ec msgs sc2 ec2 msgs2,
      runSteps sc ec msgs l = LoopResult.finished sc2 ec2 msgs2 →
      sc2 + ec2 = sc + ec + l.length := by
  induction l with
  | nil =>
    intro sc ec msgs sc2 ec2 msgs2 h
    simp only [runSteps, LoopResult.finished.injEq] at h
    simp only [List.length_nil]
    omega
  | cons o rest ih =>
    intro sc ec msgs sc2 ec2 msgs2 h
    cases o with
    | success =>
      have := ih (sc + 1) ec msgs sc2 ec2 msgs2 h
      simp only [List.length_cons]
      omega
    | failure m =>
      have := ih sc (ec + 1) (msgs ++ [m]) sc2 ec2 msgs2 h
      simp only [List.length_cons]
      omega
    | escape m => simp [runSteps] at h

theorem execute_task_eq_finished {db : List ScheduledTask} {now : Nat}
    {task_id : String} {outcomes : Nat → StepOutcome} {t1 : ScheduledTask}
    {sc ec : Nat} {msgs : List String}
    (h1 : getTaskById (update_task_status db now task_id TaskStatus.running 0 0 none)
            task_id = some t1)
    (hrun : runSteps 0 0 [] ((List.range t1.workflow_count).map outcomes) =
              LoopResult.finished sc ec msgs) :
    execute_task db now task_id outcomes =
      update_task_status
        (update_task_status db now task_id TaskStatus.running 0 0 none) now task_id
        (if ec = 0 then TaskStatus.completed else TaskStatus.failed) sc ec
        (joinedErrorMsg msgs) := by
  unfold execute_task
  simp only [h1, hrun]

theorem execute_task_eq_escaped {db : List ScheduledTask} {now : Nat}
    {task_id : String} {outcomes : Nat → StepOutcome} {t1 : ScheduledTask}
    {m : String}
    (h1 : getTaskById (update_task_status db now task_id TaskStatus.running 0 0 none)
            task_id = some t1)
    (hrun : runSteps 0 0 [] ((List.range t1.workflow_count).map outcomes) =
              LoopResult.escaped m) :
    execute_task db now task_id outcomes =
      update_task_status
        (update_task_status db now task_id TaskStatus.running 0 0 none) now task_id
        TaskStatus.failed 0 0 (some m) := by
  unfold execute_task
  simp only [h1, hrun]

/-! ### Claim theorems -/

/-- C6: when a storage operation fails, the failure is caught at the store
boundary and the caller receives a safe default instead of a propagated
exception — `load_tasks` returns the empty list, `get_task_statistics`
returns all-zero counts, `save_task`/`delete_task` return false, and
`load_config` returns the hard-coded default configuration. -/
theorem c6_storage_safe_defaults (e1 e2 e3 e4 e5 : String) (now : Nat) :
    load_tasks (Except.error e1) = [] ∧
    save_task_result (Except.error e2) = false ∧
    delete_task_result (Except.error e3) = false ∧
    get_task_statistics (Except.error e4) now =
      { total_tasks := 0, status_counts := [], recent_tasks := 0 } ∧
    load_config (Except.error e5) = defaultConfig :=
  ⟨rfl, rfl, rfl, rfl, rfl⟩

theorem c6_storage_safe_defaults_witness :
    load_tasks (Except.error "disk full") = [] ∧
    save_task_result (Except.error "disk full") = false ∧
    delete_task_result (Except.error "disk full") = false ∧
    get_task_statistics (Except.error "disk full") 0 =
      { total_tasks := 0, status_counts := [], recent_tasks := 0 } ∧
    load_config (Except.error "disk full") = defaultConfig :=
  c6_storage_safe_defaults "disk full" "disk full" "disk full" "disk full"
    "disk full" 0

/-- C7: `save_task` is a full overwrite keyed by id — saving `t1` and then
`t2` with the same id leaves the store holding exactly `t2`'s field values
under that id (no field-level merge), and leaves every other id's row
unchanged. -/
theorem c7_save_overwrite (db : List ScheduledTask) (t1 t2 : ScheduledTask)
    (h : t1.id = t2.id) :
    getTaskById (saveTask (saveTask db t1) t2) t2.id = some t2 ∧
    ∀ j, j ≠ t2.id →
      getTaskById (saveTask (saveTask db t1) t2) j = getTaskById db j := by
  constructor
  · exact getTaskById_saveTask_self _ t2
  · intro j hj
    have hj1 : j ≠ t1.id := by rw [h]; exact hj
    rw [getTaskById_saveTask_ne _ t2 hj, getTaskById_saveTask_ne _ t1 hj1]

theorem c7_save_overwrite_witness :
    getTaskById
        (saveTask (saveTask [] (mkTask "dup" 1 TaskStatus.pending 0))
          (mkTask "dup" 9 TaskStatus.running 5))
        (mkTask "dup" 9 TaskStatus.running 5).id =
      some (mkTask "dup" 9 TaskStatus.running 5) ∧
    getTaskById
        (saveTask (saveTask [] (mkTask "dup" 1 TaskStatus.pending 0))
          (mkTask "dup" 9 TaskStatus.running 5)) "other" =
      getTaskById [] "other" :=
  ⟨(c7_save_overwrite [] (mkTask "dup" 1 TaskStatus.pending 0)
      (mkTask "dup" 9 TaskStatus.running 5) rfl).1,
   (c7_save_overwrite [] (mkTask "dup" 1 TaskStatus.pending 0)
      (mkTask "dup" 9 TaskStatus.running 5) rfl).2 "other" (by decide)⟩

/-- C10: for a task id not present in the store, `update_task_status` — and
therefore `cancel_task` — is a silent no-op: it returns normally and leaves
the store completely unchanged. -/
theorem c10_missing_id_noop (db : List ScheduledTask) (now : Nat)
    (task_id : String) (status : TaskStatus) (sc ec : Nat) (em : Option String)
    (h : getTaskById db task_id = none) :
    update_task_status db now task_id status sc ec em = db ∧
    cancel_task db now task_id = db := by
  constructor
  · unfold update_task_status
    rw [h]
  · unfold cancel_task update_task_status
    rw [h]

theorem c10_missing_id_noop_witness :
    update_task_status [taskP] 9 "absent" TaskStatus.completed 1 0 none =
      [taskP] ∧
    cancel_task [taskP] 9 "absent" = [taskP] :=
  c10_missing_id_noop [taskP] 9 "absent" TaskStatus.completed 1 0 none
    (by decide)

/-- C4: the dispatch scan only launches Pending tasks whose due time has
been reached, and a task's due time is computed deterministically from its
id's kind tag: a `test_`-tagged id is due at `created_at + 1` minute under
every configuration, while any other id is due at `created_at +
auto_execute_delay_hours` taken from the configuration in effect at
evaluation time — so evaluating under a configuration with a different
delay yields a different due time for a still-Pending normal task. -/
theorem c4_due_time (cfg cfg2 : SchedulerConfig) (db : List ScheduledTask)
    (now : Nat) (t u : ScheduledTask)
    (hu : check_and_execute_tasks cfg db now = some u) :
    (u.status = TaskStatus.pending ∧ dueTime cfg u ≤ now) ∧
    (hasTestTag t.id = true →
      dueTime cfg t = t.created_at + 60 ∧ dueTime cfg t = dueTime cfg2 t) ∧
    (hasTestTag t.id = false →
      dueTime cfg t = t.created_at + 3600 * cfg.auto_execute_delay_hours ∧
      (cfg.auto_execute_delay_hours ≠ cfg2.auto_execute_delay_hours →
        dueTime cfg t ≠ dueTime cfg2 t)) := by
  refine ⟨⟨?_, ?_⟩, ?_, ?_⟩
  · have hmem : u ∈ pendingTasks db := List.mem_of_find?_eq_some hu
    have := (List.mem_filter.mp hmem).2
    simpa using this
  · have := List.find?_some hu
    simpa using this
  · intro h
    constructor
    · simp [dueTime, h]
    · simp [dueTime, h]
  · intro h
    constructor
    · simp [dueTime, h]
    · intro hne
      simp only [dueTime, h, Bool.false_eq_true, if_false]
      omega

theorem c4_due_time_witness :
    ((mkTask "task_w" 1 TaskStatus.pending 0).status = TaskStatus.pending ∧
      dueTime defaultConfig (mkTask "task_w" 1 TaskStatus.pending 0) ≤ 30000) ∧
    dueTime defaultConfig (mkTask "task_x" 1 TaskStatus.pending 0) =
      (mkTask "task_x" 1 TaskStatus.pending 0).created_at +
        3600 * defaultConfig.auto_execute_delay_hours ∧
    dueTime defaultConfig (mkTask "test_9" 1 TaskStatus.pending 0) =
      (mkTask "test_9" 1 TaskStatus.pending 0).created_at + 60 :=
  ⟨(c4_due_time defaultConfig defaultConfig
      [mkTask "task_w" 1 TaskStatus.pending 0] 30000
      (mkTask "task_x" 1 TaskStatus.pending 0)
      (mkTask "task_w" 1 TaskStatus.pending 0) (by decide)).1,
   ((c4_due_time defaultConfig defaultConfig
      [mkTask "task_w" 1 TaskStatus.pending 0] 30000
      (mkTask "task_x" 1 TaskStatus.pending 0)
      (mkTask "task_w" 1 TaskStatus.pending 0) (by decide)).2.2 (by decide)).1,
   ((c4_due_time defaultConfig defaultConfig
      [mkTask "task_w" 1 TaskStatus.pending 0] 30000
      (mkTask "test_9" 1 TaskStatus.pending 0)
      (mkTask "task_w" 1 TaskStatus.pending 0) (by decide)).2.1 (by decide)).1⟩

/-- C5: `delete_old_tasks` never removes a Pending or Running task,
regardless of age; a stored task is removed exactly when its status is
terminal (Completed, Failed or Cancelled) and its `completed_at` — or
`created_at` when `completed_at` is absent — is older than the cutoff of
now minus the given number of days. -/
theorem c5_delete_old_tasks (db : List ScheduledTask) (now days : Nat)
    (t : ScheduledTask) (hmem : t ∈ db) :
    ((t.status = TaskStatus.pending ∨ t.status = TaskStatus.running) →
      t ∈ (delete_old_tasks db now days).1) ∧
    (t ∉ (delete_old_tasks db now days).1 ↔
      (t.status = TaskStatus.completed ∨ t.status = TaskStatus.failed ∨
        t.status = TaskStatus.cancelled) ∧
      ((∃ c, t.completed_at = some c ∧ c < now - 86400 * days) ∨
        (t.completed_at = none ∧ t.created_at < now - 86400 * days))) := by
  constructor
  · rintro (h | h) <;>
      simp [delete_old_tasks, List.mem_filter, hmem, oldTaskPredicate,
        isTerminal, h]
  · cases hc : t.completed_at with
    | none =>
      simp [delete_old_tasks, List.mem_filter, hmem, oldTaskPredicate,
        isTerminal, hc]
      constructor
      · rintro ⟨h1, h2⟩
        exact ⟨by tauto, by omega⟩
      · rintro ⟨h1, h2⟩
        exact ⟨by tauto, by omega⟩
    | some c =>
      simp [delete_old_tasks, List.mem_filter, hmem, oldTaskPredicate,
        isTerminal, hc]
      constructor
      · rintro ⟨h1, h2⟩
        exact ⟨by tauto, by omega⟩
      · rintro ⟨h1, h2⟩
        exact ⟨by tauto, by omega⟩

theorem c5_delete_old_tasks_witness :
    ((taskP.status = TaskStatus.pending ∨ taskP.status = TaskStatus.running) →
      taskP ∈ (delete_old_tasks [taskP, taskD] 1000000 1).1) ∧
    taskP ∈ (delete_old_tasks [taskP, taskD] 1000000 1).1 :=
  ⟨(c5_delete_old_tasks [taskP, taskD] 1000000 1 taskP (by decide)).1,
   (c5_delete_old_tasks [taskP, taskD] 1000000 1 taskP (by decide)).1
     (Or.inl rfl)⟩

/-- C2 counterexample: `cancel_task` on a Running (hence non-Pending) task
is not rejected — it changes the stored status to Cancelled. -/
theorem c2_counterexample :
    ¬ (taskR.status ≠ TaskStatus.pending →
        cancel_task [taskR] 9 "task_r" = [taskR]) := by decide

/-- C2 (amended): `cancel_task` on any task id present in the store sets
that task's status to Cancelled unconditionally — whatever its current
status — changing no other field; rows under other ids are untouched. -/
theorem c2_cancel_unconditional (db : List ScheduledTask) (now : Nat)
    (task_id : String) (t : ScheduledTask)
    (ht : getTaskById db task_id = some t) :
    getTaskById (cancel_task db now task_id) task_id =
      some { t with status := TaskStatus.cancelled } ∧
    ∀ j, j ≠ task_id →
      getTaskById (cancel_task db now task_id) j = getTaskById db j := by
  constructor
  · have h := getTaskById_update_self now TaskStatus.cancelled 0 0 none ht
    exact h
  · intro j hj
    exact getTaskById_update_ne now TaskStatus.cancelled 0 0 none hj

theorem c2_cancel_unconditional_witness :
    getTaskById (cancel_task [taskR] 9 "task_r") "task_r" =
      some { taskR with status := TaskStatus.cancelled } ∧
    getTaskById (cancel_task [taskR] 9 "task_r") "elsewhere" =
      getTaskById [taskR] "elsewhere" :=
  ⟨(c2_cancel_unconditional [taskR] 9 "task_r" taskR (by decide)).1,
   (c2_cancel_unconditional [taskR] 9 "task_r" taskR (by decide)).2
     "elsewhere" (by decide)⟩

/-- C3 counterexample: Completed is not absorbing — `cancel_task` moves a
Completed task to Cancelled. -/
theorem c3_counterexample :
    taskD.status = TaskStatus.completed ∧
    (getTaskById (cancel_task [taskD] 9 "task_d") "task_d").map
        (fun v => decide (v.status = TaskStatus.cancelled)) =
      some true := by decide

/-- C3 (amended): only the polling dispatch respects terminality — it never
selects a non-Pending task — while `update_task_status` (and with it
`cancel_task`, `execute_task` and `execute_task_immediately`) overwrites
the status of an existing task unconditionally, so Completed, Failed and
Cancelled are not absorbing under those operations. -/
theorem c3_terminal_not_absorbing (cfg : SchedulerConfig)
    (db : List ScheduledTask) (now : Nat) (task_id : String)
    (status : TaskStatus) (sc ec : Nat) (em : Option String)
    (t u : ScheduledTask)
    (hu : check_and_execute_tasks cfg db now = some u)
    (ht : getTaskById db task_id = some t) :
    u.status = TaskStatus.pending ∧
    (getTaskById (update_task_status db now task_id status sc ec em)
        task_id).map (fun v => v.status) = some status := by
  constructor
  · have hmem : u ∈ pendingTasks db := List.mem_of_find?_eq_some hu
    have := (List.mem_filter.mp hmem).2
    simpa using this
  · rw [getTaskById_update_self now status sc ec em ht]
    simp [applyStatusUpdate_status]

theorem c3_terminal_not_absorbing_witness :
    taskP.status = TaskStatus.pending ∧
    (getTaskById
        (update_task_status [taskP, taskD] 30000 "task_d" TaskStatus.running
          0 0 none) "task_d").map (fun v => v.status) =
      some TaskStatus.running :=
  c3_terminal_not_absorbing defaultConfig [taskP, taskD] 30000 "task_d"
    TaskStatus.running 0 0 none taskD taskP (by decide) (by decide)

/-- C8 counterexample: entering the terminal state Cancelled does not
record `completed_at` — after cancelling a Pending task the stored row has
status Cancelled and `completed_at` still absent. -/
theorem c8_counterexample :
    (getTaskById (update_task_status [taskP] 9 "task_p" TaskStatus.cancelled
        0 0 none) "task_p").map
      (fun v => (decide (v.status = TaskStatus.cancelled), v.completed_at)) =
      some (true, none) := by decide

/-- C8 (amended): `started_at` is stamped on every update to Running —
whatever the previous status — and left alone otherwise; `completed_at` is
stamped exactly on updates to Completed or Failed (entry to Cancelled does
not record it); updates to any other status leave both timestamps
unchanged. -/
theorem c8_timestamps (db : List ScheduledTask) (now : Nat)
    (task_id : String) (status : TaskStatus) (sc ec : Nat)
    (em : Option String) (t v : ScheduledTask)
    (ht : getTaskById db task_id = some t)
    (hv : getTaskById (update_task_status db now task_id status sc ec em)
            task_id = some v) :
    (status = TaskStatus.running →
      v.started_at = some now ∧ v.completed_at = t.completed_at) ∧
    ((status = TaskStatus.completed ∨ status = TaskStatus.failed) →
      v.completed_at = some now ∧ v.started_at = t.started_at) ∧
    ((status = TaskStatus.pending ∨ status = TaskStatus.cancelled) →
      v.started_at = t.started_at ∧ v.completed_at = t.completed_at) := by
  rw [getTaskById_update_self now status sc ec em ht] at hv
  have hv2 : v = applyStatusUpdate now t status sc ec em :=
    (Option.some_inj.mp hv).symm
  subst hv2
  refine ⟨?_, ?_, ?_⟩
  · rintro rfl
    simp [applyStatusUpdate]
  · rintro (rfl | rfl) <;> simp [applyStatusUpdate]
  · rintro (rfl | rfl) <;> simp [applyStatusUpdate]

theorem c8_timestamps_witness :
    ({ taskP with status := TaskStatus.cancelled } : ScheduledTask).started_at =
        taskP.started_at ∧
    ({ taskP with status := TaskStatus.cancelled } : ScheduledTask).completed_at =
        taskP.completed_at :=
  (c8_timestamps [taskP] 9 "task_p" TaskStatus.cancelled 0 0 none taskP
      { taskP with status := TaskStatus.cancelled } (by decide)
      (by decide)).2.2 (Or.inr rfl)

/-- C9 counterexample: ids are not unique — two daily tasks created 30
seconds apart (distinct tasks, both within the same target minute) are
assigned the same id string. -/
theorem c9_counterexample :
    (create_daily_task defaultConfig 0 70).id =
      (create_daily_task defaultConfig 30 70).id ∧
    create_daily_task defaultConfig 0 70 ≠
      create_daily_task defaultConfig 30 70 := by decide

/-- C9 (amended): a daily task's id is the minute-stamp of its target
execution time, so any two `create_daily_task` calls whose target times
fall in the same minute are assigned the same id, and saving the second
task overwrites the first record through the upsert. -/
theorem c9_id_collision (cfg : SchedulerConfig) (db : List ScheduledTask)
    (n1 n2 wc1 wc2 : Nat)
    (h : (n1 + 3600 * cfg.auto_execute_delay_hours) / 60 =
          (n2 + 3600 * cfg.auto_execute_delay_hours) / 60) :
    (create_daily_task cfg n1 wc1).id = (create_daily_task cfg n2 wc2).id ∧
    getTaskById
        (saveTask (saveTask db (create_daily_task cfg n1 wc1))
          (create_daily_task cfg n2 wc2))
        (create_daily_task cfg n2 wc2).id =
      some (create_daily_task cfg n2 wc2) := by
  constructor
  · show daily_task_id cfg n1 = daily_task_id cfg n2
    unfold daily_task_id fmtMinute
    rw [h]
  · exact getTaskById_saveTask_self _ _

theorem c9_id_collision_witness :
    (create_daily_task defaultConfig 0 70).id =
      (create_daily_task defaultConfig 30 5).id ∧
    getTaskById
        (saveTask (saveTask [] (create_daily_task defaultConfig 0 70))
          (create_daily_task defaultConfig 30 5))
        (create_daily_task defaultConfig 30 5).id =
      some (create_daily_task defaultConfig 30 5) :=
  c9_id_collision defaultConfig [] 0 30 70 5 (by decide)

/-- C1 counterexample: on the escaped-exception path the persisted counts
are the kwargs defaults 0/0, so a task with `workflow_count = 2` reaches
Failed with `success_count + error_count = 0 ≠ 2`. -/
theorem c1_counterexample :
    ¬ (∀ t ∈ execute_task [taskA] 50 "task_100"
          (fun _ => StepOutcome.escape "boom"),
        (t.status = TaskStatus.completed ∨ t.status = TaskStatus.failed) →
        t.success_count + t.error_count = t.workflow_count) := by decide

/-- C1 (amended): when the iteration loop of `execute_task` runs to
completion, the persisted task reaches Completed or Failed with
`success_count + error_count = workflow_count` exactly; when an exception
escapes the loop, the task reaches Failed with both persisted counts equal
to 0 (the kwargs defaults), not with counts summing to `workflow_count`. -/
theorem c1_terminal_counts (db : List ScheduledTask) (now : Nat)
    (task_id : String) (outcomes : Nat → StepOutcome) (t : ScheduledTask)
    (ht : getTaskById db task_id = some t) :
    (∀ sc ec msgs,
        runSteps 0 0 [] ((List.range t.workflow_count).map outcomes) =
          LoopResult.finished sc ec msgs →
        ∀ u,
          getTaskById (execute_task db now task_id outcomes) task_id = some u →
          u.success_count + u.error_count = u.workflow_count ∧
          (u.status = TaskStatus.completed ∨ u.status = TaskStatus.failed)) ∧
    (∀ m,
        runSteps 0 0 [] ((List.range t.workflow_count).map outcomes) =
          LoopResult.escaped m →
        ∀ u,
          getTaskById (execute_task db now task_id outcomes) task_id = some u →
          u.status = TaskStatus.failed ∧ u.success_count = 0 ∧
            u.error_count = 0) := by
  have ht1 : getTaskById
      (update_task_status db now task_id TaskStatus.running 0 0 none) task_id =
      some (applyStatusUpdate now t TaskStatus.running 0 0 none) :=
    getTaskById_update_self now TaskStatus.running 0 0 none ht
  have hwc : (applyStatusUpdate now t TaskStatus.running 0 0 none).workflow_count =
      t.workflow_count :=
    applyStatusUpdate_workflow_count now t TaskStatus.running 0 0 none
  constructor
  · intro sc ec msgs hrun u hu
    have hrun1 : runSteps 0 0 []
        ((List.range (applyStatusUpdate now t TaskStatus.running 0 0
          none).workflow_count).map outcomes) =
        LoopResult.finished sc ec msgs := by
      rw [hwc]
      exact hrun
    rw [execute_task_eq_finished ht1 hrun1] at hu
    rw [getTaskById_update_self now _ sc ec (joinedErrorMsg msgs) ht1] at hu
    have hu2 := (Option.some_inj.mp hu).symm
    subst hu2
    have hterm :
        (if ec = 0 then TaskStatus.completed else TaskStatus.failed) =
            TaskStatus.completed ∨
        (if ec = 0 then TaskStatus.completed else TaskStatus.failed) =
            TaskStatus.failed := by
      by_cases hec : ec = 0 <;> simp [hec]
    have hc := applyStatusUpdate_counts now
      (applyStatusUpdate now t TaskStatus.running 0 0 none) sc ec
      (joinedErrorMsg msgs) hterm
    have hsum := runSteps_finished_counts _ 0 0 [] sc ec msgs hrun
    constructor
    · rw [hc.1, hc.2, applyStatusUpdate_workflow_count, hwc]
      simpa using hsum
    · rw [applyStatusUpdate_status]
      exact hterm
  · intro m hrun u hu
    have hrun1 : runSteps 0 0 []
        ((List.range (applyStatusUpdate now t TaskStatus.running 0 0
          none).workflow_count).map outcomes) =
        LoopResult.escaped m := by
      rw [hwc]
      exact hrun
    rw [execute_task_eq_escaped ht1 hrun1] at hu
    rw [getTaskById_update_self now TaskStatus.failed 0 0 (some m) ht1] at hu
    have hu2 := (Option.some_inj.mp hu).symm
    subst hu2
    have hc := applyStatusUpdate_counts now
      (applyStatusUpdate now t TaskStatus.running 0 0 none) 0 0 (some m)
      (Or.inr rfl)
    exact ⟨applyStatusUpdate_status now _ TaskStatus.failed 0 0 (some m),
      hc.1, hc.2⟩

theorem c1_terminal_counts_witness :
    taskBFinal.success_count + taskBFinal.error_count =
      taskBFinal.workflow_count ∧
    (taskBFinal.status = TaskStatus.completed ∨
      taskBFinal.status = TaskStatus.failed) :=
  (c1_terminal_counts [taskB] 7 "task_5" (fun _ => StepOutcome.success) taskB
      (by decide)).1 2 0 [] (by decide) taskBFinal (by decide)
end Glass3k
